import Mathlib

/-!
# Cloud disk backup tool: a verification development of `main.go`

The program is a command-line utility with two straight-line call sequences:
`createSnapshot` (disk Get, snapshot Insert, wait) and `GetLatestSnapshot`
(one HTTP GET listing the snapshots, then a scan of the decoded items), followed
by writing the resulting URL to the file `snapshot.url`.

The embedding is shallow.  Every call that leaves the program (the provider SDK,
`net/http`, `net/url`, the credentials library, the clock and the file system)
takes its result from an environment `Env`, and every such call is recorded, in
program order, in a trace of `Event`s.  Go strings are modelled by Lean strings;
`strings.Contains` is substring containment over their characters.  A Go result
`(string, error)` is a pair of a string and an `Option GoError` (`none` is `nil`).
-/

set_option autoImplicit false

namespace CloudDiskBackup

/-! ## Errors -/

/-- Go error values.  `new msg` is `errors.New(msg)` (also `fmt.Errorf` without a
`%w` verb); `wrap pfx inner` is `fmt.Errorf(pfx ++ "%w", inner)`. -/
inductive GoError where
  | new (msg : String)
  | wrap (pfx : String) (inner : GoError)
  deriving DecidableEq, Repr

/-- The text of an error, as the method `Error()` returns it. -/
def GoError.Error : GoError → String
  | .new msg => msg
  | .wrap pfx inner => pfx ++ inner.Error

/-- The argument handed to `log.Fatal`: a string literal or an error value. -/
inductive LogArg where
  | str (s : String)
  | err (e : GoError)
  deriving DecidableEq, Repr

/-! ## Response data (lines 23-48) -/

/-- One element of `items` in the snapshot-list response (`type SnapshotItem`). -/
structure SnapshotItem where
  Kind : String := ""
  ID : String := ""
  CreationTimestamp : String := ""
  Name : String := ""
  Status : String := ""
  SourceDisk : String := ""
  SourceDiskID : String := ""
  DiskSizeGb : String := ""
  StorageBytes : String := ""
  StorageBytesStatus : String := ""
  SelfLink : String := ""
  LabelFingerprint : String := ""
  StorageLocations : List String := []
  DownloadBytes : String := ""
  CreationSizeBytes : String := ""
  AutoCreated : Bool := false
  SourceSnapshotSchedulePolicy : String := ""
  SourceSnapshotSchedulePolicyID : String := ""
  deriving DecidableEq, Repr

/-- The decoded snapshot-list response (`type SnapshotList`). -/
structure SnapshotList where
  Kind : String := ""
  ID : String := ""
  Items : List SnapshotItem := []
  SelfLink : String := ""
  deriving DecidableEq, Repr

/-! ## Requests and responses of the library calls -/

/-- A parsed `*url.URL`: the part before the query, and the query parameters that
`RawQuery` encodes, in insertion order. -/
structure URL where
  base : String
  query : List (String × String) := []
  deriving DecidableEq, Repr

/-- An `*http.Request` as this program builds it. -/
structure HttpRequest where
  method : String
  url : URL
  header : List (String × String) := []
  deriving DecidableEq, Repr

/-- The response of `client.Do`: what decoding its body as a `SnapshotList` yields. -/
structure HttpResponse where
  decoded : Except GoError SnapshotList

/-- The message `computepb.GetDiskRequest`. -/
structure GetDiskRequest where
  Project : String
  Zone : String
  Disk : String
  deriving DecidableEq, Repr

/-- The message `computepb.GetRegionDiskRequest`. -/
structure GetRegionDiskRequest where
  Project : String
  Region : String
  Disk : String
  deriving DecidableEq, Repr

/-- The part of `computepb.Disk` the program reads (`GetSelfLink`). -/
structure Disk where
  SelfLink : String := ""
  deriving DecidableEq, Repr

/-- The message `computepb.Snapshot` as filled in by `createSnapshot`. -/
structure Snapshot where
  Name : String
  SourceDisk : String
  StorageLocations : List String
  deriving DecidableEq, Repr

/-- The message `computepb.InsertSnapshotRequest`. -/
structure InsertSnapshotRequest where
  Project : String
  SnapshotResource : Snapshot
  deriving DecidableEq, Repr

/-- The part of a compute operation the program reads (`Proto().GetTargetLink()`). -/
structure Operation where
  TargetLink : String := ""
  deriving DecidableEq, Repr

/-! ## The environment and the trace -/

/-- Results of every call that leaves the program.  For the calls returning only an
error, `none` is `nil`. -/
structure Env where
  /-- The call `auth.FindDefaultCredentials(ctx, scopes...)`. -/
  findDefaultCredentials : List String → Option GoError
  /-- The call `credentials.TokenSource.Token()`: the access token. -/
  token : Except GoError String
  /-- The call `url.Parse(rawurl)`. -/
  urlParse : String → Except GoError URL
  /-- The call `http.NewRequest(method, url.String(), nil)`. -/
  newRequest : String → URL → Option GoError
  /-- The call `client.Do(req)`. -/
  clientDo : HttpRequest → Except GoError HttpResponse
  /-- The call `compute.NewSnapshotsRESTClient(ctx)`. -/
  newSnapshotsRESTClient : Option GoError
  /-- The call `compute.NewDisksRESTClient(ctx)`. -/
  newDisksRESTClient : Option GoError
  /-- The call `compute.NewRegionDisksRESTClient(ctx)`. -/
  newRegionDisksRESTClient : Option GoError
  /-- The call `disksClient.Get(ctx, req)`. -/
  disksGet : GetDiskRequest → Except GoError Disk
  /-- The call `regionDisksClient.Get(ctx, req)`. -/
  regionDisksGet : GetRegionDiskRequest → Except GoError Disk
  /-- The call `snapshotsClient.Insert(ctx, req)`. -/
  snapshotsInsert : InsertSnapshotRequest → Except GoError Operation
  /-- The call `op.Wait(ctx)`: an error, or the operation as it stands afterwards. -/
  operationWait : Operation → Except GoError Operation
  /-- The call `time.Now().Format(layout)`. -/
  timeNowFormat : String → String
  /-- The call `os.Create(filename)`. -/
  osCreate : String → Option GoError
  /-- The call `file.WriteString(content)` on the file created under `filename`. -/
  fileWriteString : String → String → Option GoError

/-- The externally visible actions of a run, recorded in program order. -/
inductive Event where
  | findDefaultCredentials (scopes : List String)
  | token
  | httpDo (req : HttpRequest)
  | bodyClose
  | newSnapshotsRESTClient
  | newDisksRESTClient
  | newRegionDisksRESTClient
  | snapshotsClientClose
  | disksClientClose
  | regionDisksClientClose
  | disksGet (req : GetDiskRequest)
  | regionDisksGet (req : GetRegionDiskRequest)
  | snapshotsInsert (req : InsertSnapshotRequest)
  | operationWait (op : Operation)
  | fprintf (s : String)
  | logPrintln (args : List String)
  | osCreate (filename : String)
  | fileWriteString (filename content : String)
  | fileClose (filename : String)
  deriving DecidableEq, Repr

/-- The event is the snapshot-list request (the HTTP GET of `GetLatestSnapshot`). -/
def Event.isSnapshotList : Event → Bool
  | .httpDo _ => true
  | _ => false

/-- The event is a disk Get (zonal or regional). -/
def Event.isDiskGet : Event → Bool
  | .disksGet _ => true
  | .regionDisksGet _ => true
  | _ => false

/-- The event is a snapshot Insert. -/
def Event.isSnapshotInsert : Event → Bool
  | .snapshotsInsert _ => true
  | _ => false

/-- The event is a wait on the operation an Insert returned. -/
def Event.isOperationWait : Event → Bool
  | .operationWait _ => true
  | _ => false

/-! ## `strings.Contains` -/

/-- Scan of `s` for an occurrence of `substr`, position by position. -/
def containsChars : List Char → List Char → Bool
  | [], substr => substr.isEmpty
  | c :: cs, substr => substr.isPrefixOf (c :: cs) || containsChars cs substr

/-- The library function `strings.Contains(s, substr)`: whether `substr` is within `s`. -/
def stringsContains (s substr : String) : Bool :=
  containsChars s.data substr.data

/-! ## `getAuthToken` (lines 50-65) -/

/-- The OAuth scopes requested by `getAuthToken`. -/
def scopes : List String := ["https://www.googleapis.com/auth/cloud-platform"]

/-- How a call of a function of this program ends: it returns a value, the process
exits through `log.Fatal`, or the goroutine panics. -/
inductive Ending (α : Type) where
  | ret (a : α)
  | fatal (v : LogArg)
  | panic (msg : String)
  deriving DecidableEq

/-- A call's ending together with the events it produced. -/
structure Run (α : Type) where
  ending : Ending α
  trace : List Event

/-- The function `getAuthToken`: the `Authorization` header value, or `log.Fatal`. -/
def getAuthToken (env : Env) : Run String :=
  match env.findDefaultCredentials scopes with
  | some err => ⟨.fatal (.err err), [.findDefaultCredentials scopes]⟩
  | none =>
    match env.token with
    | .error err => ⟨.fatal (.err err), [.findDefaultCredentials scopes, .token]⟩
    | .ok accessToken =>
      ⟨.ret ("Bearer " ++ accessToken), [.findDefaultCredentials scopes, .token]⟩

/-! ## `GetLatestSnapshot` (lines 66-100) -/

/-- The loop of lines 94-99: the `SelfLink` of the first item whose `SourceDisk`
contains `disk`, or the error `snapshot not found`. -/
def firstMatch : List SnapshotItem → String → String × Option GoError
  | [], _ => ("", some (.new "snapshot not found"))
  | item :: rest, disk =>
    if stringsContains item.SourceDisk disk then (item.SelfLink, none)
    else firstMatch rest disk

/-- The URL requested by `GetLatestSnapshot` before parsing. -/
def snapshotsURL (project : String) : String :=
  "https://compute.googleapis.com/compute/v1/projects/" ++ project ++ "/global/snapshots"

/-- Lines 67-92 of `GetLatestSnapshot`: build the request, send it and decode the
body.  The value `.error err` stands for an early `return "", err`.  When
`url.Parse` fails its result is `nil` and `url.Query()` on line 70 dereferences it. -/
def snapshotListResponse (env : Env) (project : String) : Run (Except GoError SnapshotList) :=
  match env.urlParse (snapshotsURL project) with
  | .error _ => ⟨.panic "invalid memory address or nil pointer dereference", []⟩
  | .ok url =>
    let method := "GET"
    let url := { url with query := url.query ++ [("orderBy", "creationTimestamp desc")] }
    match env.newRequest method url with
    | some err => ⟨.ret (.error err), []⟩
    | none =>
      let auth := getAuthToken env
      match auth.ending with
      | .fatal v => ⟨.fatal v, auth.trace⟩
      | .panic msg => ⟨.panic msg, auth.trace⟩
      | .ret authorization =>
        let req : HttpRequest :=
          { method := method, url := url, header := [("Authorization", authorization)] }
        match env.clientDo req with
        | .error err => ⟨.ret (.error err), auth.trace ++ [.httpDo req]⟩
        | .ok res => ⟨.ret res.decoded, auth.trace ++ [.httpDo req, .bodyClose]⟩

/-- The function `GetLatestSnapshot`; the parameter `region` is not used. -/
def GetLatestSnapshot (env : Env) (project region disk : String) :
    Run (String × Option GoError) :=
  let _ := region
  let response := snapshotListResponse env project
  match response.ending with
  | .fatal v => ⟨.fatal v, response.trace⟩
  | .panic msg => ⟨.panic msg, response.trace⟩
  | .ret (.error err) => ⟨.ret ("", some err), response.trace⟩
  | .ret (.ok snapshot) => ⟨.ret (firstMatch snapshot.Items disk), response.trace⟩

/-! ## `createSnapshot` (lines 102-198) -/

/-- Outcome of lines 141-175 of `createSnapshot`: the disk or the error returned,
the events produced, and the `Close` calls deferred on the branch taken. -/
structure DiskLookup where
  result : Except GoError Disk
  events : List Event
  deferred : List Event

/-- Lines 141-175 of `createSnapshot`: Get the zonal disk when `zone` is set, the
regional disk otherwise. -/
def getSourceDisk (env : Env) (projectID diskName zone region : String) : DiskLookup :=
  if zone ≠ "" then
    match env.newDisksRESTClient with
    | some err => ⟨.error (.wrap "NewDisksRESTClient: " err), [.newDisksRESTClient], []⟩
    | none =>
      let getDiskReq : GetDiskRequest := { Project := projectID, Zone := zone, Disk := diskName }
      match env.disksGet getDiskReq with
      | .error err =>
        ⟨.error (.wrap "unable to get disk: " err),
          [.newDisksRESTClient, .disksGet getDiskReq], [.disksClientClose]⟩
      | .ok disk => ⟨.ok disk, [.newDisksRESTClient, .disksGet getDiskReq], [.disksClientClose]⟩
  else
    match env.newRegionDisksRESTClient with
    | some err =>
      ⟨.error (.wrap "NewRegionDisksRESTClient: " err), [.newRegionDisksRESTClient], []⟩
    | none =>
      let getDiskReq : GetRegionDiskRequest :=
        { Project := projectID, Region := region, Disk := diskName }
      match env.regionDisksGet getDiskReq with
      | .error err =>
        ⟨.error (.wrap "unable to get disk: " err),
          [.newRegionDisksRESTClient, .regionDisksGet getDiskReq], [.regionDisksClientClose]⟩
      | .ok disk =>
        ⟨.ok disk, [.newRegionDisksRESTClient, .regionDisksGet getDiskReq],
          [.regionDisksClientClose]⟩

/-- The function `createSnapshot`: its `(string, error)` result and its trace.  The
deferred `Close` calls run, last registered first, when the function returns. -/
def createSnapshot (env : Env)
    (projectID diskName snapshotName zone region location diskProjectID : String) :
    (String × Option GoError) × List Event :=
  match env.newSnapshotsRESTClient with
  | some err => (("", some (.wrap "NewSnapshotsRESTClient: " err)), [.newSnapshotsRESTClient])
  | none =>
    if zone = "" ∧ region = "" then
      (("", some (.new "you need to specify `zone` or `region` for this function to work")),
        [.newSnapshotsRESTClient, .snapshotsClientClose])
    else if zone ≠ "" ∧ region ≠ "" then
      (("", some (.new "you can't set both `zone` and `region` parameters")),
        [.newSnapshotsRESTClient, .snapshotsClientClose])
    else
      let _ := if diskProjectID = "" then projectID else diskProjectID
      let locations : List String := if location ≠ "" then [location] else []
      let got := getSourceDisk env projectID diskName zone region
      let deferred : List Event := got.deferred ++ [.snapshotsClientClose]
      match got.result with
      | .error err => (("", some err), [.newSnapshotsRESTClient] ++ got.events ++ deferred)
      | .ok disk =>
        let req : InsertSnapshotRequest :=
          { Project := projectID,
            SnapshotResource :=
              { Name := snapshotName, SourceDisk := disk.SelfLink,
                StorageLocations := locations } }
        match env.snapshotsInsert req with
        | .error err =>
          (("", some (.wrap "unable to create snapshot: " err)),
            [.newSnapshotsRESTClient] ++ got.events ++ [.snapshotsInsert req] ++ deferred)
        | .ok op =>
          match env.operationWait op with
          | .error err =>
            (("", some (.wrap "unable to wait for the operation: " err)),
              [.newSnapshotsRESTClient] ++ got.events
                ++ [.snapshotsInsert req, .operationWait op] ++ deferred)
          | .ok done =>
            ((done.TargetLink, none),
              [.newSnapshotsRESTClient] ++ got.events
                ++ [.snapshotsInsert req, .operationWait op, .fprintf "Snapshot created\n"]
                ++ deferred)

/-! ## `writeToFile`, `generateSnapshotName` and `main` (lines 199-255) -/

/-- The function `writeToFile`: the error it returns, and its trace. -/
def writeToFile (env : Env) (filename content : String) : Option GoError × List Event :=
  match env.osCreate filename with
  | some err => (some err, [.osCreate filename])
  | none =>
    match env.fileWriteString filename content with
    | some err =>
      (some err, [.osCreate filename, .fileWriteString filename content, .fileClose filename])
    | none =>
      (none, [.osCreate filename, .fileWriteString filename content, .fileClose filename])

/-- The function `generateSnapshotName`. -/
def generateSnapshotName (env : Env) (diskName : String) : String :=
  let currentTime := env.timeNowFormat "20060102-150405"
  diskName ++ "-snapshot-" ++ currentTime

/-- The command-line flags after `flag.Parse()`. -/
structure Flags where
  createBackup : Bool := false
  project : String := ""
  region : String := ""
  disk : String := ""
  deriving DecidableEq, Repr

/-- Lines 251-254 of `main`: log the URL and write it to `snapshot.url`. -/
def persist (env : Env) (snapshotUrl : String) (before : List Event) : Run Unit :=
  let written := writeToFile env "snapshot.url" snapshotUrl
  let trace := before ++ [.logPrintln ["Snapshot Url:", snapshotUrl]] ++ written.2
  match written.1 with
  | some err => ⟨.fatal (.err err), trace⟩
  | none => ⟨.ret (), trace⟩

/-- The function `main`, from the parsed flags on.  In the query branch the error
returned by `GetLatestSnapshot` is assigned to `err` and not looked at again. -/
def main (env : Env) (flags : Flags) : Run Unit :=
  if flags.project = "" ∨ flags.region = "" ∨ flags.disk = "" then
    ⟨.fatal (.str "Error: Missing required argument"), []⟩
  else if flags.createBackup then
    let snapshotName := generateSnapshotName env flags.disk
    let created :=
      createSnapshot env flags.project flags.disk snapshotName "" flags.region flags.region ""
    match created.1.2 with
    | some err => ⟨.fatal (.err err), created.2⟩
    | none => persist env created.1.1 created.2
  else
    let latest := GetLatestSnapshot env flags.project flags.region flags.disk
    match latest.ending with
    | .fatal v => ⟨.fatal v, latest.trace⟩
    | .panic msg => ⟨.panic msg, latest.trace⟩
    | .ret (snapshotUrl, _) => persist env snapshotUrl latest.trace

/-! ## Notions used to state the properties -/

/-- The provider API calls of a trace: snapshot-list requests, disk Gets, snapshot
Inserts and operation waits, in the order issued. -/
def apiCalls (trace : List Event) : List Event :=
  trace.filter fun e =>
    e.isSnapshotList || e.isDiskGet || e.isSnapshotInsert || e.isOperationWait

/-- The final path segment of a resource URL: what follows its last `/`. -/
def finalPathSegment (s : String) : String :=
  String.mk (s.data.reverse.takeWhile (· ≠ '/')).reverse

/-- An environment in which every call succeeds and the snapshot list holds `items`. -/
def envWith (items : List SnapshotItem) : Env where
  findDefaultCredentials := fun _ => none
  token := .ok "ya29.token"
  urlParse := fun rawurl => .ok { base := rawurl }
  newRequest := fun _ _ => none
  clientDo := fun _ => .ok { decoded := .ok { Items := items } }
  newSnapshotsRESTClient := none
  newDisksRESTClient := none
  newRegionDisksRESTClient := none
  disksGet := fun req =>
    .ok { SelfLink := "projects/" ++ req.Project ++ "/zones/" ++ req.Zone ++ "/disks/" ++ req.Disk }
  regionDisksGet := fun req =>
    .ok { SelfLink :=
      "projects/" ++ req.Project ++ "/regions/" ++ req.Region ++ "/disks/" ++ req.Disk }
  snapshotsInsert := fun req =>
    .ok { TargetLink :=
      "projects/" ++ req.Project ++ "/global/snapshots/" ++ req.SnapshotResource.Name }
  operationWait := fun op => .ok op
  timeNowFormat := fun _ => "20240102-030405"
  osCreate := fun _ => none
  fileWriteString := fun _ _ => none

/-- The newest sample snapshot, taken of the regional disk `data-old`. -/
def snapshotS4 : SnapshotItem :=
  { Name := "s4", CreationTimestamp := "2024-01-04T00:00:00.000-08:00",
    SourceDisk := "https://www.googleapis.com/compute/v1/projects/p/regions/r/disks/data-old",
    SelfLink := "https://www.googleapis.com/compute/v1/projects/p/global/snapshots/s4" }

/-- A sample snapshot of the regional disk `data`. -/
def snapshotS3 : SnapshotItem :=
  { Name := "s3", CreationTimestamp := "2024-01-03T00:00:00.000-08:00",
    SourceDisk := "https://www.googleapis.com/compute/v1/projects/p/regions/r/disks/data",
    SelfLink := "https://www.googleapis.com/compute/v1/projects/p/global/snapshots/s3" }

/-- A sample snapshot of the regional disk `logs`. -/
def snapshotS2 : SnapshotItem :=
  { Name := "s2", CreationTimestamp := "2024-01-02T00:00:00.000-08:00",
    SourceDisk := "https://www.googleapis.com/compute/v1/projects/p/regions/r/disks/logs",
    SelfLink := "https://www.googleapis.com/compute/v1/projects/p/global/snapshots/s2" }

/-- The oldest sample snapshot, again of the regional disk `logs`. -/
def snapshotS1 : SnapshotItem :=
  { Name := "s1", CreationTimestamp := "2024-01-01T00:00:00.000-08:00",
    SourceDisk := "https://www.googleapis.com/compute/v1/projects/p/regions/r/disks/logs",
    SelfLink := "https://www.googleapis.com/compute/v1/projects/p/global/snapshots/s1" }

/-- A snapshot list in the order the API returns it, newest first. -/
def sampleItems : List SnapshotItem := [snapshotS4, snapshotS3, snapshotS2, snapshotS1]

/-- The environment `envWith items`, except that the regional disk Get fails. -/
def envDiskNotFound (items : List SnapshotItem) : Env :=
  { envWith items with
    regionDisksGet := fun _ => .error (.new "googleapi: Error 404: disk not found") }

/-- The environment `envWith items`, except that no default credentials are found. -/
def envNoCredentials (items : List SnapshotItem) : Env :=
  { envWith items with
    findDefaultCredentials := fun _ =>
      some (.new "google: could not find default credentials") }

/-- The snapshot-list request built by `GetLatestSnapshot` from the parsed URL and
the access token (lines 68-80). -/
def listRequest (url : URL) (accessToken : String) : HttpRequest :=
  { method := "GET",
    url := { url with query := url.query ++ [("orderBy", "creationTimestamp desc")] },
    header := [("Authorization", "Bearer " ++ accessToken)] }

/-- The regional disk Get request that `main` has `createSnapshot` send. -/
def mainGetRequest (flags : Flags) : GetRegionDiskRequest :=
  { Project := flags.project, Region := flags.region, Disk := flags.disk }

/-- The snapshot Insert request that `main` has `createSnapshot` send once the disk
Get has returned `disk`. -/
def mainInsertRequest (env : Env) (flags : Flags) (disk : Disk) : InsertSnapshotRequest :=
  { Project := flags.project,
    SnapshotResource :=
      { Name := generateSnapshotName env flags.disk, SourceDisk := disk.SelfLink,
        StorageLocations := [flags.region] } }

/-- The provider API calls of a create-mode run that passes the argument check, read
off the environment: nothing when a client cannot be created, else the disk Get,
then the Insert when the Get succeeded, then the wait when the Insert succeeded. -/
def createModeCalls (env : Env) (flags : Flags) : List Event :=
  match env.newSnapshotsRESTClient, env.newRegionDisksRESTClient with
  | none, none =>
    match env.regionDisksGet (mainGetRequest flags) with
    | .error _ => [.regionDisksGet (mainGetRequest flags)]
    | .ok disk =>
      match env.snapshotsInsert (mainInsertRequest env flags disk) with
      | .error _ =>
        [.regionDisksGet (mainGetRequest flags),
          .snapshotsInsert (mainInsertRequest env flags disk)]
      | .ok op =>
        [.regionDisksGet (mainGetRequest flags),
          .snapshotsInsert (mainInsertRequest env flags disk), .operationWait op]
  | _, _ => []

/-! ## `strings.Contains` is substring containment -/

theorem containsChars_iff (s substr : List Char) :
    containsChars s substr = true ↔ substr <:+: s := by
  induction s with
  | nil => simp [containsChars, List.isEmpty_iff]
  | cons c cs ih =>
    rw [containsChars, Bool.or_eq_true, ih, List.infix_cons_iff, List.isPrefixOf_iff_prefix]

theorem stringsContains_iff (s substr : String) :
    stringsContains s substr = true ↔ substr.data <:+: s.data :=
  containsChars_iff s.data substr.data

/-! ## The loop of `GetLatestSnapshot` -/

theorem firstMatch_of_no_match (items : List SnapshotItem) (disk : String)
    (h : ∀ item ∈ items, ¬ disk.data <:+: item.SourceDisk.data) :
    firstMatch items disk = ("", some (.new "snapshot not found")) := by
  induction items with
  | nil => rfl
  | cons item rest ih =>
    have hitem : stringsContains item.SourceDisk disk = false := by
      rw [← Bool.not_eq_true, stringsContains_iff]
      exact h item (List.mem_cons_self _ _)
    rw [firstMatch, if_neg (by simp [hitem])]
    exact ih fun x hx => h x (List.mem_cons_of_mem _ hx)

theorem firstMatch_of_match (items : List SnapshotItem) (disk : String)
    (h : ∃ item ∈ items, disk.data <:+: item.SourceDisk.data) :
    ∃ (i : Nat) (item : SnapshotItem), items[i]? = some item ∧ disk.data <:+: item.SourceDisk.data ∧
      (∀ (j : Nat) (earlier : SnapshotItem), j < i → items[j]? = some earlier →
        ¬ disk.data <:+: earlier.SourceDisk.data) ∧
      firstMatch items disk = (item.SelfLink, none) := by
  induction items with
  | nil => simp at h
  | cons item rest ih =>
    by_cases hitem : disk.data <:+: item.SourceDisk.data
    · refine ⟨0, item, List.getElem?_cons_zero, hitem, fun j _ hj => absurd hj (Nat.not_lt_zero j), ?_⟩
      rw [firstMatch, if_pos ((stringsContains_iff _ _).mpr hitem)]
    · have hrest : ∃ x ∈ rest, disk.data <:+: x.SourceDisk.data := by
        obtain ⟨x, hx, hxd⟩ := h
        rcases List.mem_cons.mp hx with rfl | hx
        · exact absurd hxd hitem
        · exact ⟨x, hx, hxd⟩
      obtain ⟨i, found, hi, hfound, hmin, hres⟩ := ih hrest
      refine ⟨i + 1, found, by rw [List.getElem?_cons_succ]; exact hi, hfound, ?_, ?_⟩
      · intro j earlier hj hget
        cases j with
        | zero =>
          have : earlier = item := by simpa using hget.symm
          rw [this]; exact hitem
        | succ j => exact hmin j earlier (by omega) (by simpa using hget)
      · rw [firstMatch, if_neg (by rw [stringsContains_iff]; exact hitem)]
        exact hres

theorem GetLatestSnapshot_of_response (env : Env) (project region disk : String)
    (snapshot : SnapshotList)
    (hresp : (snapshotListResponse env project).ending = .ret (.ok snapshot)) :
    (GetLatestSnapshot env project region disk).ending
      = .ret (firstMatch snapshot.Items disk) := by
  simp only [GetLatestSnapshot, hresp]

theorem firstMatch_of_error (items : List SnapshotItem) (disk url : String) (err : GoError)
    (h : firstMatch items disk = (url, some err)) :
    url = "" ∧ err = .new "snapshot not found" ∧
      ∀ item ∈ items, ¬ disk.data <:+: item.SourceDisk.data := by
  induction items with
  | nil =>
    simp only [firstMatch, Prod.mk.injEq, Option.some.injEq] at h
    exact ⟨h.1.symm, h.2.symm, fun _ hx => absurd hx (List.not_mem_nil _)⟩
  | cons item rest ih =>
    rw [firstMatch] at h
    split at h
    · simp at h
    · rename_i hitem
      obtain ⟨hurl, herr, hrest⟩ := ih h
      refine ⟨hurl, herr, fun x hx => ?_⟩
      rcases List.mem_cons.mp hx with rfl | hx
      · rw [← stringsContains_iff]; exact hitem
      · exact hrest x hx

theorem firstMatch_of_nil_error (items : List SnapshotItem) (disk link : String)
    (h : firstMatch items disk = (link, none)) :
    ∃ item ∈ items, item.SelfLink = link ∧ disk.data <:+: item.SourceDisk.data := by
  induction items with
  | nil => simp [firstMatch] at h
  | cons item rest ih =>
    rw [firstMatch] at h
    split at h
    · rename_i hitem
      simp only [Prod.mk.injEq, and_true] at h
      exact ⟨item, List.mem_cons_self _ _, h, (stringsContains_iff _ _).mp hitem⟩
    · obtain ⟨x, hx, hlink, hxd⟩ := ih h
      exact ⟨x, List.mem_cons_of_mem _ hx, hlink, hxd⟩

theorem pairwise_at_indices (R : SnapshotItem → SnapshotItem → Prop) (l : List SnapshotItem)
    (h : l.Pairwise R) (i k : Nat) (a b : SnapshotItem) (hik : i < k)
    (ha : l[i]? = some a) (hb : l[k]? = some b) : R a b := by
  induction l generalizing i k with
  | nil => simp at ha
  | cons x xs ih =>
    rw [List.pairwise_cons] at h
    cases k with
    | zero => exact absurd hik (Nat.not_lt_zero i)
    | succ k =>
      rw [List.getElem?_cons_succ] at hb
      cases i with
      | zero =>
        rw [List.getElem?_cons_zero] at ha
        rw [← Option.some.inj ha]
        exact h.1 b (List.getElem?_mem hb)
      | succ i =>
        rw [List.getElem?_cons_succ] at ha
        exact ih h.2 i k (by omega) ha hb

/-! ## Properties of `GetLatestSnapshot` -/

/-- C1: when the list request and the decoding succeed and some item's `SourceDisk`
contains `disk`, `GetLatestSnapshot` returns `(SelfLink of item i, nil)` where `i`
is the smallest index whose `SourceDisk` contains `disk`: no item at an earlier
index matches.  Hence, for a list the API returned newest first (pairwise ordered
by any relation `newer`), the returned item is `newer` than every other matching
item of the list. -/
theorem GetLatestSnapshot_returns_first_match (env : Env) (project region disk : String)
    (snapshot : SnapshotList)
    (hresp : (snapshotListResponse env project).ending = .ret (.ok snapshot))
    (hex : ∃ item ∈ snapshot.Items, disk.data <:+: item.SourceDisk.data) :
    ∃ (i : Nat) (item : SnapshotItem), snapshot.Items[i]? = some item ∧
      disk.data <:+: item.SourceDisk.data ∧
      (∀ (j : Nat) (earlier : SnapshotItem), j < i → snapshot.Items[j]? = some earlier →
        ¬ disk.data <:+: earlier.SourceDisk.data) ∧
      (GetLatestSnapshot env project region disk).ending = .ret (item.SelfLink, none) ∧
      (∀ newer : SnapshotItem → SnapshotItem → Prop, snapshot.Items.Pairwise newer →
        ∀ (k : Nat) (other : SnapshotItem), k ≠ i → snapshot.Items[k]? = some other →
          disk.data <:+: other.SourceDisk.data → newer item other) := by
  obtain ⟨i, item, hi, hitem, hmin, hres⟩ := firstMatch_of_match snapshot.Items disk hex
  refine ⟨i, item, hi, hitem, hmin,
    (GetLatestSnapshot_of_response env project region disk snapshot hresp).trans
      (congrArg Ending.ret hres), ?_⟩
  intro newer hsorted k other hk hother hmatch
  rcases Nat.lt_or_gt_of_ne hk with hlt | hgt
  · exact absurd hmatch (hmin k other hlt hother)
  · exact pairwise_at_indices newer snapshot.Items hsorted i k item other hgt hi hother

/-- Witness of C1 on the sample list with disk `logs`: the hypotheses hold there
and the theorem applies. -/
theorem GetLatestSnapshot_returns_first_match_witness :
    (snapshotListResponse (envWith sampleItems) "p").ending
        = .ret (.ok { Items := sampleItems }) ∧
    (∃ item ∈ sampleItems, "logs".data <:+: item.SourceDisk.data) ∧
    ∃ (i : Nat) (item : SnapshotItem), sampleItems[i]? = some item ∧
      "logs".data <:+: item.SourceDisk.data ∧
      (∀ (j : Nat) (earlier : SnapshotItem), j < i → sampleItems[j]? = some earlier →
        ¬ "logs".data <:+: earlier.SourceDisk.data) ∧
      (GetLatestSnapshot (envWith sampleItems) "p" "r" "logs").ending
        = .ret (item.SelfLink, none) :=
  have hex : ∃ item ∈ sampleItems, "logs".data <:+: item.SourceDisk.data :=
    ⟨snapshotS2, by simp [sampleItems], (stringsContains_iff _ _).mp (by decide)⟩
  have ⟨i, item, hi, hitem, hmin, hres, _⟩ :=
    GetLatestSnapshot_returns_first_match (envWith sampleItems) "p" "r" "logs"
      { Items := sampleItems } rfl hex
  ⟨rfl, hex, i, item, hi, hitem, hmin, hres⟩

/-- C2, as stated, fails: on the sample list with the disk name `data` the list
request succeeds and `GetLatestSnapshot` returns the `SelfLink` of snapshot `s4`,
whose `SourceDisk` ends in the segment `data-old`, not `data`; the snapshot `s3` of
the disk named `data` is in the list and is not the one returned. -/
theorem GetLatestSnapshot_selects_containing_disk_name :
    "data" ≠ "" ∧
    (snapshotListResponse (envWith sampleItems) "p").ending
        = .ret (.ok { Items := sampleItems }) ∧
    snapshotS4 ∈ sampleItems ∧
    (GetLatestSnapshot (envWith sampleItems) "p" "r" "data").ending
        = .ret (snapshotS4.SelfLink, none) ∧
    finalPathSegment snapshotS4.SourceDisk = "data-old" ∧
    finalPathSegment snapshotS4.SourceDisk ≠ "data" ∧
    snapshotS3 ∈ sampleItems ∧ finalPathSegment snapshotS3.SourceDisk = "data" ∧
    snapshotS3.SelfLink ≠ snapshotS4.SelfLink := by
  refine ⟨by decide, rfl, by simp [sampleItems], by decide, by decide, by decide,
    by simp [sampleItems], by decide, by decide⟩

/-- C2, amended: when the list request and the decoding succeed and
`GetLatestSnapshot` returns `(link, nil)`, then `link` is the `SelfLink` of an item
of the list whose `SourceDisk` contains the given disk name as a substring. -/
theorem GetLatestSnapshot_selected_contains_disk (env : Env)
    (project region disk link : String) (snapshot : SnapshotList)
    (hresp : (snapshotListResponse env project).ending = .ret (.ok snapshot))
    (hret : (GetLatestSnapshot env project region disk).ending = .ret (link, none)) :
    ∃ item ∈ snapshot.Items, item.SelfLink = link ∧
      disk.data <:+: item.SourceDisk.data := by
  rw [GetLatestSnapshot_of_response env project region disk snapshot hresp] at hret
  exact firstMatch_of_nil_error snapshot.Items disk link (Ending.ret.inj hret)

/-- Witness of the amended C2 on the sample list with the disk name `data`. -/
theorem GetLatestSnapshot_selected_contains_disk_witness :
    (snapshotListResponse (envWith sampleItems) "p").ending
        = .ret (.ok { Items := sampleItems }) ∧
    (GetLatestSnapshot (envWith sampleItems) "p" "r" "data").ending
        = .ret (snapshotS4.SelfLink, none) ∧
    ∃ item ∈ sampleItems, item.SelfLink = snapshotS4.SelfLink ∧
      "data".data <:+: item.SourceDisk.data :=
  ⟨rfl, by decide,
    GetLatestSnapshot_selected_contains_disk (envWith sampleItems) "p" "r" "data"
      snapshotS4.SelfLink { Items := sampleItems } rfl (by decide)⟩

/-- C3: when the list request and the decoding succeed, `GetLatestSnapshot` returns
`("", error "snapshot not found")` if and only if no item's `SourceDisk` contains
`disk`, and in particular for an empty item list; and on every path, a result with
a non-nil error carries the empty URL. -/
theorem GetLatestSnapshot_not_found_iff (env : Env) (project region disk : String) :
    (∀ snapshot : SnapshotList,
      (snapshotListResponse env project).ending = .ret (.ok snapshot) →
      (((GetLatestSnapshot env project region disk).ending
            = .ret ("", some (.new "snapshot not found"))
          ↔ ∀ item ∈ snapshot.Items, ¬ disk.data <:+: item.SourceDisk.data) ∧
        (snapshot.Items = [] →
          (GetLatestSnapshot env project region disk).ending
            = .ret ("", some (.new "snapshot not found"))))) ∧
    (∀ (url : String) (err : GoError),
      (GetLatestSnapshot env project region disk).ending = .ret (url, some err) →
        url = "") := by
  constructor
  · intro snapshot hresp
    rw [GetLatestSnapshot_of_response env project region disk snapshot hresp]
    refine ⟨⟨fun h => ?_, fun h => ?_⟩, fun h => ?_⟩
    · exact (firstMatch_of_error snapshot.Items disk _ _ (Ending.ret.inj h)).2.2
    · rw [firstMatch_of_no_match snapshot.Items disk h]
    · rw [h]; rfl
  · intro url err h
    unfold GetLatestSnapshot at h
    simp only at h
    split at h
    · simp at h
    · simp at h
    · simp only [Ending.ret.injEq, Prod.mk.injEq] at h
      exact h.1.symm
    · exact (firstMatch_of_error _ disk url err (Ending.ret.inj h)).1

/-- Witness of C3 on an empty snapshot list. -/
theorem GetLatestSnapshot_not_found_iff_witness :
    (snapshotListResponse (envWith []) "p").ending = .ret (.ok { Items := [] }) ∧
    (GetLatestSnapshot (envWith []) "p" "r" "data").ending
      = .ret ("", some (.new "snapshot not found")) :=
  ⟨rfl,
    ((GetLatestSnapshot_not_found_iff (envWith []) "p" "r" "data").1
      { Items := [] } rfl).2 rfl⟩

/-! ## Properties of `createSnapshot` -/

theorem append_ne_of_head_ne (p s t : String) (c d : Char) (ps ts : List Char)
    (hp : p.data = c :: ps) (ht : t.data = d :: ts) (hcd : c ≠ d) : p ++ s ≠ t := by
  intro h
  have hdata := congrArg String.data h
  rw [String.data_append, hp, ht, List.cons_append] at hdata
  exact hcd (List.cons.inj hdata).1

theorem wrap_Error_ne (p t : String) (inner : GoError) (c d : Char) (ps ts : List Char)
    (hp : p.data = c :: ps) (ht : t.data = d :: ts) (hcd : c ≠ d) :
    (GoError.wrap p inner).Error ≠ t :=
  append_ne_of_head_ne p inner.Error t c d ps ts hp ht hcd

theorem getSourceDisk_error (env : Env) (projectID diskName zone region : String)
    (err : GoError)
    (h : (getSourceDisk env projectID diskName zone region).result = .error err) :
    ∃ (p : String) (inner : GoError) (ps : List Char),
      err = .wrap p inner ∧ (p.data = 'N' :: ps ∨ p.data = 'u' :: ps) := by
  unfold getSourceDisk at h
  split at h
  · split at h
    · exact ⟨_, _, _, (Except.error.inj h).symm, Or.inl rfl⟩
    · dsimp only at h
      split at h
      · exact ⟨_, _, _, (Except.error.inj h).symm, Or.inr rfl⟩
      · simp at h
  · split at h
    · exact ⟨_, _, _, (Except.error.inj h).symm, Or.inl rfl⟩
    · dsimp only at h
      split at h
      · exact ⟨_, _, _, (Except.error.inj h).symm, Or.inr rfl⟩
      · simp at h

/-- C5: provided the snapshots client is created, `createSnapshot` returns
`("", error "you need to specify ...")` when `zone` and `region` are both empty and
`("", error "you can't set both ...")` when both are non-empty, in both cases
without any provider API call (no disk Get, no snapshot Insert); when exactly one of
the two is non-empty, no error it returns has either of these two texts. -/
theorem createSnapshot_requires_one_of_zone_region (env : Env)
    (projectID diskName snapshotName zone region location diskProjectID : String)
    (hclient : env.newSnapshotsRESTClient = none) :
    (zone = "" ∧ region = "" →
      (createSnapshot env projectID diskName snapshotName zone region location
          diskProjectID).1
        = ("", some (.new "you need to specify `zone` or `region` for this function to work")) ∧
      apiCalls (createSnapshot env projectID diskName snapshotName zone region location
          diskProjectID).2 = []) ∧
    (zone ≠ "" ∧ region ≠ "" →
      (createSnapshot env projectID diskName snapshotName zone region location
          diskProjectID).1
        = ("", some (.new "you can't set both `zone` and `region` parameters")) ∧
      apiCalls (createSnapshot env projectID diskName snapshotName zone region location
          diskProjectID).2 = []) ∧
    ((zone = "" ∧ region ≠ "") ∨ (zone ≠ "" ∧ region = "") →
      ∀ err : GoError,
        (createSnapshot env projectID diskName snapshotName zone region location
          diskProjectID).1.2 = some err →
        err.Error ≠ "you need to specify `zone` or `region` for this function to work" ∧
        err.Error ≠ "you can't set both `zone` and `region` parameters") := by
  refine ⟨fun h => ?_, fun h => ?_, fun h err herr => ?_⟩
  · simp [createSnapshot, hclient, h.1, h.2, apiCalls, Event.isSnapshotList,
      Event.isDiskGet, Event.isSnapshotInsert, Event.isOperationWait]
  · simp [createSnapshot, hclient, h.1, h.2, apiCalls, Event.isSnapshotList,
      Event.isDiskGet, Event.isSnapshotInsert, Event.isOperationWait]
  · have hnot1 : ¬ (zone = "" ∧ region = "") := by
      rcases h with h | h
      · exact fun hc => h.2 hc.2
      · exact fun hc => h.1 hc.1
    have hnot2 : ¬ (zone ≠ "" ∧ region ≠ "") := by
      rcases h with h | h
      · exact fun hc => hc.1 h.1
      · exact fun hc => hc.2 h.2
    unfold createSnapshot at herr
    simp only [hclient, if_neg hnot1, if_neg hnot2] at herr
    have key : ∀ (p : String) (inner : GoError) (ps : List Char),
        (p.data = 'N' :: ps ∨ p.data = 'u' :: ps) →
        (GoError.wrap p inner).Error
            ≠ "you need to specify `zone` or `region` for this function to work" ∧
        (GoError.wrap p inner).Error
            ≠ "you can't set both `zone` and `region` parameters" := by
      intro p inner ps hp
      rcases hp with hp | hp
      · exact ⟨wrap_Error_ne p _ inner 'N' 'y' ps _ hp rfl (by decide),
          wrap_Error_ne p _ inner 'N' 'y' ps _ hp rfl (by decide)⟩
      · exact ⟨wrap_Error_ne p _ inner 'u' 'y' ps _ hp rfl (by decide),
          wrap_Error_ne p _ inner 'u' 'y' ps _ hp rfl (by decide)⟩
    have hgot := getSourceDisk_error env projectID diskName zone region
    generalize getSourceDisk env projectID diskName zone region = got at herr hgot
    split at herr
    · rename_i e hres
      obtain ⟨p, inner, ps, he, hp⟩ := hgot e hres
      simp only [Option.some.injEq] at herr
      rw [← herr, he]
      exact key p inner ps hp
    · split at herr
      · simp only [Option.some.injEq] at herr
        rw [← herr]
        exact key _ _ _ (Or.inr rfl)
      · split at herr
        · simp only [Option.some.injEq] at herr
          rw [← herr]
          exact key _ _ _ (Or.inr rfl)
        · simp at herr

/-- Witness of C5: with the snapshots client created, empty `zone` and `region`
give the first error and two non-empty ones the second. -/
theorem createSnapshot_requires_one_of_zone_region_witness :
    (envWith []).newSnapshotsRESTClient = none ∧
    (createSnapshot (envWith []) "p" "data" "data-snapshot-1" "" "" "" "").1
      = ("", some (.new "you need to specify `zone` or `region` for this function to work")) ∧
    apiCalls (createSnapshot (envWith []) "p" "data" "data-snapshot-1" "" "" "" "").2 = [] :=
  ⟨rfl,
    (createSnapshot_requires_one_of_zone_region (envWith []) "p" "data" "data-snapshot-1"
      "" "" "" "" rfl).1 ⟨rfl, rfl⟩⟩

/-! ## Properties of `main` -/

theorem getAuthToken_fatal (env : Env) (v : LogArg)
    (h : (getAuthToken env).ending = .fatal v) : ∃ err, v = .err err := by
  unfold getAuthToken at h
  split at h
  · exact ⟨_, (Ending.fatal.inj h).symm⟩
  · split at h
    · exact ⟨_, (Ending.fatal.inj h).symm⟩
    · simp at h

theorem snapshotListResponse_fatal (env : Env) (project : String) (v : LogArg)
    (h : (snapshotListResponse env project).ending = .fatal v) : ∃ err, v = .err err := by
  unfold snapshotListResponse at h
  split at h
  · simp at h
  · dsimp only at h
    split at h
    · simp at h
    · split at h
      · rename_i w hw
        rw [← Ending.fatal.inj h]
        exact getAuthToken_fatal env w hw
      · simp at h
      · split at h <;> simp at h

theorem GetLatestSnapshot_fatal (env : Env) (project region disk : String) (v : LogArg)
    (h : (GetLatestSnapshot env project region disk).ending = .fatal v) :
    ∃ err, v = .err err := by
  unfold GetLatestSnapshot at h
  dsimp only at h
  split at h
  · rename_i w hw
    rw [← Ending.fatal.inj h]
    exact snapshotListResponse_fatal env project w hw
  · simp at h
  · simp at h
  · simp at h

theorem persist_ending_ne (env : Env) (snapshotUrl s : String) (before : List Event) :
    (persist env snapshotUrl before).ending ≠ .fatal (.str s) := by
  unfold persist
  dsimp only
  split <;> simp

/-- C6: when any of `-project`, `-region`, `-disk` is empty, `main` ends in
`log.Fatal("Error: Missing required argument")` with an empty trace, whatever the
environment: no client is created, no request is sent and `snapshot.url` is not
written; when all three are non-empty `main` does not end in that fatal. -/
theorem main_rejects_missing_argument (env : Env) (flags : Flags) :
    (flags.project = "" ∨ flags.region = "" ∨ flags.disk = "" →
      (main env flags).ending = .fatal (.str "Error: Missing required argument") ∧
      (main env flags).trace = []) ∧
    (flags.project ≠ "" ∧ flags.region ≠ "" ∧ flags.disk ≠ "" →
      (main env flags).ending ≠ .fatal (.str "Error: Missing required argument")) := by
  constructor
  · intro h
    simp only [main, if_pos h, and_self]
  · intro h
    have hvalid : ¬ (flags.project = "" ∨ flags.region = "" ∨ flags.disk = "") := by
      rintro (hp | hr | hd)
      · exact h.1 hp
      · exact h.2.1 hr
      · exact h.2.2 hd
    unfold main
    rw [if_neg hvalid]
    split
    · dsimp only
      split
      · simp
      · exact persist_ending_ne env _ _ _
    · dsimp only
      split
      · rename_i w hw
        obtain ⟨err, hv⟩ := GetLatestSnapshot_fatal env _ _ _ w hw
        rw [hv]; simp
      · simp
      · exact persist_ending_ne env _ _ _

/-- Witness of C6: a run without `-disk` is rejected, a run with all three
arguments is not. -/
theorem main_rejects_missing_argument_witness :
    (main (envWith sampleItems) { project := "p", region := "r" }).ending
        = .fatal (.str "Error: Missing required argument") ∧
    (main (envWith sampleItems) { project := "p", region := "r" }).trace = [] ∧
    (main (envWith sampleItems) { project := "p", region := "r", disk := "logs" }).ending
        ≠ .fatal (.str "Error: Missing required argument") :=
  ⟨((main_rejects_missing_argument (envWith sampleItems)
        { project := "p", region := "r" }).1 (Or.inr (Or.inr rfl))).1,
    ((main_rejects_missing_argument (envWith sampleItems)
        { project := "p", region := "r" }).1 (Or.inr (Or.inr rfl))).2,
    (main_rejects_missing_argument (envWith sampleItems)
        { project := "p", region := "r", disk := "logs" }).2
      ⟨by decide, by decide, by decide⟩⟩

/-- C4, evaluated where the code departs from it.  In query mode with no snapshot of
disk `db` in the list, `GetLatestSnapshot` returns `("", error "snapshot not found")`,
and `main` still creates `snapshot.url`, writes the empty string to it and ends
normally.  In create mode a failing `createSnapshot` ends `main` in `log.Fatal`
and the trace shows no file being created or written. -/
theorem main_writes_empty_url_when_query_fails :
    (GetLatestSnapshot (envWith sampleItems) "p" "r" "db").ending
        = .ret ("", some (.new "snapshot not found")) ∧
    (main (envWith sampleItems) { project := "p", region := "r", disk := "db" }).ending
        = .ret () ∧
    Event.fileWriteString "snapshot.url" ""
        ∈ (main (envWith sampleItems) { project := "p", region := "r", disk := "db" }).trace ∧
    (createSnapshot (envDiskNotFound sampleItems) "p" "db" "db-snapshot-20240102-030405"
          "" "r" "r" "").1
        = ("", some (.wrap "unable to get disk: "
            (.new "googleapi: Error 404: disk not found"))) ∧
    (main (envDiskNotFound sampleItems)
          { createBackup := true, project := "p", region := "r", disk := "db" }).ending
        = .fatal (.err (.wrap "unable to get disk: "
            (.new "googleapi: Error 404: disk not found"))) ∧
    (main (envDiskNotFound sampleItems)
          { createBackup := true, project := "p", region := "r", disk := "db" }).trace
        = [.newSnapshotsRESTClient, .newRegionDisksRESTClient,
            .regionDisksGet { Project := "p", Region := "r", Disk := "db" },
            .regionDisksClientClose, .snapshotsClientClose] := by
  refine ⟨by decide, by decide, by decide, by decide, by decide, by decide⟩

/-! ## The provider API calls of a run -/

theorem apiCalls_append (a b : List Event) : apiCalls (a ++ b) = apiCalls a ++ apiCalls b :=
  List.filter_append _ _

theorem apiCalls_writeToFile (env : Env) (filename content : String) :
    apiCalls (writeToFile env filename content).2 = [] := by
  unfold writeToFile
  split
  · rfl
  · split <;> rfl

theorem apiCalls_persist (env : Env) (snapshotUrl : String) (before : List Event) :
    apiCalls (persist env snapshotUrl before).trace = apiCalls before := by
  have hlog : apiCalls [Event.logPrintln ["Snapshot Url:", snapshotUrl]] = [] := rfl
  unfold persist
  dsimp only
  split <;>
    rw [apiCalls_append, apiCalls_append, hlog, apiCalls_writeToFile, List.append_nil,
      List.append_nil]

theorem apiCalls_getAuthToken (env : Env) : apiCalls (getAuthToken env).trace = [] := by
  unfold getAuthToken
  split
  · rfl
  · split <;> rfl

theorem apiCalls_snapshotListResponse (env : Env) (project : String) :
    apiCalls (snapshotListResponse env project).trace = [] ∨
      ∃ req, apiCalls (snapshotListResponse env project).trace = [.httpDo req] := by
  unfold snapshotListResponse
  split
  · exact Or.inl rfl
  · dsimp only
    split
    · exact Or.inl rfl
    · split
      · exact Or.inl (apiCalls_getAuthToken env)
      · exact Or.inl (apiCalls_getAuthToken env)
      · split
        · exact Or.inr ⟨_, by rw [apiCalls_append, apiCalls_getAuthToken]; rfl⟩
        · exact Or.inr ⟨_, by rw [apiCalls_append, apiCalls_getAuthToken]; rfl⟩

theorem apiCalls_snapshotListResponse_sent (env : Env) (project : String) (url : URL)
    (accessToken : String)
    (hparse : env.urlParse (snapshotsURL project) = .ok url)
    (hreq : env.newRequest "GET" (listRequest url accessToken).url = none)
    (hcred : env.findDefaultCredentials scopes = none)
    (htoken : env.token = .ok accessToken) :
    apiCalls (snapshotListResponse env project).trace
      = [.httpDo (listRequest url accessToken)] := by
  have hauth : getAuthToken env
      = ⟨.ret ("Bearer " ++ accessToken), [.findDefaultCredentials scopes, .token]⟩ := by
    simp only [getAuthToken, hcred, htoken]
  simp only [listRequest] at hreq
  simp only [snapshotListResponse, hparse, hreq, hauth, listRequest]
  split <;> rfl

theorem GetLatestSnapshot_trace (env : Env) (project region disk : String) :
    (GetLatestSnapshot env project region disk).trace
      = (snapshotListResponse env project).trace := by
  unfold GetLatestSnapshot
  dsimp only
  split <;> rfl

theorem main_trace_of_missing_argument (env : Env) (flags : Flags)
    (hmissing : flags.project = "" ∨ flags.region = "" ∨ flags.disk = "") :
    (main env flags).trace = [] := by
  simp only [main, if_pos hmissing]

theorem apiCalls_main_query (env : Env) (flags : Flags)
    (hvalid : ¬ (flags.project = "" ∨ flags.region = "" ∨ flags.disk = ""))
    (hflag : flags.createBackup = false) :
    apiCalls (main env flags).trace
      = apiCalls (snapshotListResponse env flags.project).trace := by
  rw [← GetLatestSnapshot_trace env flags.project flags.region flags.disk]
  simp only [main, if_neg hvalid, hflag, Bool.false_eq_true, if_false]
  split
  · rfl
  · rfl
  · exact apiCalls_persist env _ _

theorem getSourceDisk_region (env : Env) (projectID diskName region : String) :
    getSourceDisk env projectID diskName "" region
      = match env.newRegionDisksRESTClient with
        | some err =>
          ⟨.error (.wrap "NewRegionDisksRESTClient: " err), [.newRegionDisksRESTClient], []⟩
        | none =>
          match env.regionDisksGet
              { Project := projectID, Region := region, Disk := diskName } with
          | .error err =>
            ⟨.error (.wrap "unable to get disk: " err),
              [.newRegionDisksRESTClient,
                .regionDisksGet { Project := projectID, Region := region, Disk := diskName }],
              [.regionDisksClientClose]⟩
          | .ok disk =>
            ⟨.ok disk,
              [.newRegionDisksRESTClient,
                .regionDisksGet { Project := projectID, Region := region, Disk := diskName }],
              [.regionDisksClientClose]⟩ := by
  unfold getSourceDisk
  rw [if_neg (by simp)]

theorem apiCalls_createSnapshot_main (env : Env) (flags : Flags)
    (hregion : flags.region ≠ "") :
    apiCalls (createSnapshot env flags.project flags.disk
        (generateSnapshotName env flags.disk) "" flags.region flags.region "").2
      = createModeCalls env flags := by
  have hg := getSourceDisk_region env flags.project flags.disk flags.region
  unfold createModeCalls createSnapshot
  cases h1 : env.newSnapshotsRESTClient with
  | some e => rfl
  | none =>
    simp only [hregion, and_false, false_and, if_false, ne_eq, not_true_eq_false,
      not_false_eq_true, if_true]
    cases h2 : env.newRegionDisksRESTClient with
    | some e =>
      rw [h2] at hg
      simp only [hg]
      rfl
    | none =>
      rw [h2] at hg
      simp only [mainGetRequest, mainInsertRequest]
      cases h3 : env.regionDisksGet
          { Project := flags.project, Region := flags.region, Disk := flags.disk } with
      | error e =>
        rw [h3] at hg
        simp only [hg]
        rfl
      | ok disk =>
        rw [h3] at hg
        simp only [hg]
        cases h4 : env.snapshotsInsert
            { Project := flags.project,
              SnapshotResource :=
                { Name := generateSnapshotName env flags.disk, SourceDisk := disk.SelfLink,
                  StorageLocations := [flags.region] } } with
        | error e => rfl
        | ok op =>
          simp only
          cases h5 : env.operationWait op with
          | error e => rfl
          | ok done => rfl

theorem apiCalls_main_create (env : Env) (flags : Flags)
    (hvalid : ¬ (flags.project = "" ∨ flags.region = "" ∨ flags.disk = ""))
    (hflag : flags.createBackup = true) :
    apiCalls (main env flags).trace = createModeCalls env flags := by
  rw [← apiCalls_createSnapshot_main env flags fun h => hvalid (Or.inr (Or.inl h))]
  simp only [main, if_neg hvalid, hflag, if_true]
  split
  · rfl
  · exact apiCalls_persist env _ _

theorem not_missing_of_present (flags : Flags)
    (h : flags.project ≠ "" ∧ flags.region ≠ "" ∧ flags.disk ≠ "") :
    ¬ (flags.project = "" ∨ flags.region = "" ∨ flags.disk = "") := by
  rintro (hp | hr | hd)
  · exact h.1 hp
  · exact h.2.1 hr
  · exact h.2.2 hd

theorem createModeCalls_shape (env : Env) (flags : Flags) :
    createModeCalls env flags = [] ∨
      createModeCalls env flags = [.regionDisksGet (mainGetRequest flags)] ∨
      ∃ disk, env.regionDisksGet (mainGetRequest flags) = .ok disk ∧
        (createModeCalls env flags
            = [.regionDisksGet (mainGetRequest flags),
                .snapshotsInsert (mainInsertRequest env flags disk)] ∨
          ∃ op, env.snapshotsInsert (mainInsertRequest env flags disk) = .ok op ∧
            createModeCalls env flags
              = [.regionDisksGet (mainGetRequest flags),
                  .snapshotsInsert (mainInsertRequest env flags disk), .operationWait op]) := by
  unfold createModeCalls
  split
  · split
    · exact Or.inr (Or.inl rfl)
    · rename_i disk hdisk
      refine Or.inr (Or.inr ⟨disk, hdisk, ?_⟩)
      split
      · exact Or.inl rfl
      · rename_i op hop
        exact Or.inr ⟨op, hop, rfl⟩
  · exact Or.inl rfl

/-- C7, as stated, fails: with `-create-backup` false and all three required
arguments given, a run in which no default credentials are found ends in
`log.Fatal` inside `getAuthToken` before the request is sent, so it issues no
snapshot-list GET at all. -/
theorem main_query_without_list_request :
    ({ project := "p", region := "r", disk := "logs" } : Flags).createBackup = false ∧
    (main (envNoCredentials sampleItems) { project := "p", region := "r", disk := "logs" }).ending
        = .fatal (.err (.new "google: could not find default credentials")) ∧
    (main (envNoCredentials sampleItems) { project := "p", region := "r", disk := "logs" }).trace
        = [.findDefaultCredentials scopes] ∧
    apiCalls
        (main (envNoCredentials sampleItems) { project := "p", region := "r", disk := "logs" }).trace
        = [] := by
  refine ⟨rfl, by decide, by decide, by decide⟩

/-- C7, amended.  The provider API calls of a run of `main` are, in order:
with `-create-backup` false, nothing or one snapshot-list GET, and exactly that GET
when the three required arguments are non-empty, the URL parses, the request is
built and the credentials and token are obtained; with `-create-backup` true,
nothing, or one regional disk Get, followed only when that Get succeeded by one
snapshot Insert, followed only when that Insert succeeded by one wait on its
operation, and never the list GET; when the arguments are non-empty and both
clients are created, the Get is issued, and the Insert is issued exactly when the
Get succeeds.  No call occurs twice. -/
theorem main_api_calls (env : Env) (flags : Flags) :
    (flags.createBackup = false →
      (apiCalls (main env flags).trace = [] ∨
        ∃ req, apiCalls (main env flags).trace = [.httpDo req]) ∧
      (flags.project ≠ "" ∧ flags.region ≠ "" ∧ flags.disk ≠ "" →
        ∀ (url : URL) (accessToken : String),
          env.urlParse (snapshotsURL flags.project) = .ok url →
          env.newRequest "GET" (listRequest url accessToken).url = none →
          env.findDefaultCredentials scopes = none →
          env.token = .ok accessToken →
          apiCalls (main env flags).trace = [.httpDo (listRequest url accessToken)])) ∧
    (flags.createBackup = true →
      (apiCalls (main env flags).trace = [] ∨
        apiCalls (main env flags).trace = [.regionDisksGet (mainGetRequest flags)] ∨
        ∃ disk, env.regionDisksGet (mainGetRequest flags) = .ok disk ∧
          (apiCalls (main env flags).trace
              = [.regionDisksGet (mainGetRequest flags),
                  .snapshotsInsert (mainInsertRequest env flags disk)] ∨
            ∃ op, env.snapshotsInsert (mainInsertRequest env flags disk) = .ok op ∧
              apiCalls (main env flags).trace
                = [.regionDisksGet (mainGetRequest flags),
                    .snapshotsInsert (mainInsertRequest env flags disk),
                    .operationWait op])) ∧
      (flags.project ≠ "" ∧ flags.region ≠ "" ∧ flags.disk ≠ "" →
        env.newSnapshotsRESTClient = none → env.newRegionDisksRESTClient = none →
        (∀ err, env.regionDisksGet (mainGetRequest flags) = .error err →
          apiCalls (main env flags).trace = [.regionDisksGet (mainGetRequest flags)]) ∧
        (∀ disk, env.regionDisksGet (mainGetRequest flags) = .ok disk →
          (∀ err, env.snapshotsInsert (mainInsertRequest env flags disk) = .error err →
            apiCalls (main env flags).trace
              = [.regionDisksGet (mainGetRequest flags),
                  .snapshotsInsert (mainInsertRequest env flags disk)]) ∧
          (∀ op, env.snapshotsInsert (mainInsertRequest env flags disk) = .ok op →
            apiCalls (main env flags).trace
              = [.regionDisksGet (mainGetRequest flags),
                  .snapshotsInsert (mainInsertRequest env flags disk),
                  .operationWait op])))) := by
  refine ⟨fun hflag => ⟨?_, ?_⟩, fun hflag => ⟨?_, ?_⟩⟩
  · by_cases hmissing : flags.project = "" ∨ flags.region = "" ∨ flags.disk = ""
    · left
      rw [main_trace_of_missing_argument env flags hmissing]
      rfl
    · rw [apiCalls_main_query env flags hmissing hflag]
      exact apiCalls_snapshotListResponse env flags.project
  · intro hpresent url accessToken hparse hreq hcred htoken
    rw [apiCalls_main_query env flags (not_missing_of_present flags hpresent) hflag]
    exact apiCalls_snapshotListResponse_sent env flags.project url accessToken
      hparse hreq hcred htoken
  · by_cases hmissing : flags.project = "" ∨ flags.region = "" ∨ flags.disk = ""
    · left
      rw [main_trace_of_missing_argument env flags hmissing]
      rfl
    · rw [apiCalls_main_create env flags hmissing hflag]
      exact createModeCalls_shape env flags
  · intro hpresent hsnap hdisks
    rw [apiCalls_main_create env flags (not_missing_of_present flags hpresent) hflag]
    unfold createModeCalls
    rw [hsnap, hdisks]
    refine ⟨fun err herr => ?_, fun disk hdisk => ⟨fun err herr => ?_, fun op hop => ?_⟩⟩
    · simp only [herr]
    · simp only [hdisk, herr]
    · simp only [hdisk, hop]

/-- Witness of the amended C7: a query run on the sample environment issues exactly
the list GET, and a create run issues the disk Get, the Insert and the wait. -/
theorem main_api_calls_witness :
    apiCalls (main (envWith sampleItems) { project := "p", region := "r", disk := "logs" }).trace
        = [.httpDo (listRequest { base := snapshotsURL "p" } "ya29.token")] ∧
    apiCalls (main (envWith sampleItems)
          { createBackup := true, project := "p", region := "r", disk := "logs" }).trace
        = [.regionDisksGet { Project := "p", Region := "r", Disk := "logs" },
            .snapshotsInsert
              { Project := "p",
                SnapshotResource :=
                  { Name := "logs-snapshot-20240102-030405",
                    SourceDisk := "projects/p/regions/r/disks/logs",
                    StorageLocations := ["r"] } },
            .operationWait
              { TargetLink := "projects/p/global/snapshots/logs-snapshot-20240102-030405" }] :=
  ⟨((main_api_calls (envWith sampleItems)
        { project := "p", region := "r", disk := "logs" }).1 rfl).2
      ⟨by decide, by decide, by decide⟩ { base := snapshotsURL "p" } "ya29.token"
      rfl rfl rfl rfl,
    ((((main_api_calls (envWith sampleItems)
        { createBackup := true, project := "p", region := "r", disk := "logs" }).2 rfl).2
      ⟨by decide, by decide, by decide⟩ rfl rfl).2
        { SelfLink := "projects/p/regions/r/disks/logs" } rfl).2
        { TargetLink := "projects/p/global/snapshots/logs-snapshot-20240102-030405" }
        rfl⟩

end CloudDiskBackup
